import Mathlib

/-!
Shallow embedding of the starnext-import traffic-count aggregation and
data-quality code (src/lib.rs, src/check_data.rs) and proofs about it.

Modelling conventions:
* Rust `i32`/`u32` counters become `Int`/`Nat` (no overflow is exercised by
  any observation considered here);
* Rust `f32` speeds become `ℚ`; every numeric literal appearing in the source
  (`15.1`, `75.0`, ...) is exactly representable in both `f32` comparison
  order and `ℚ`, so branch decisions agree at every input we reason about;
* `Result<T, CountError>` becomes `Except CountError T`;
* the `error!`/`warn!` log macros become explicit data: an error counter for
  the aggregator, lists of warned slot names / totals for the checker;
* `HashMap` becomes an insertion-ordered association list, `BTreeMap` an
  association list kept sorted by key (mirroring its iteration order).
-/

/-- The error enum from src/lib.rs, restricted to the variants reachable from
the embedded functions (the remaining variants carry `&Path` values that never
arise here). -/
inductive CountError where
  | BadVehicleClass : Nat → CountError
  | InvalidSpeed : ℚ → CountError
  deriving DecidableEq, Repr

/-- The direction of a lane (src/lib.rs `Direction`). -/
inductive Direction where
  | North
  | East
  | South
  | West
  deriving DecidableEq, Repr

/-- The directions that a count could contain (src/lib.rs `Directions`). -/
structure Directions where
  direction1 : Direction
  direction2 : Option Direction
  deriving DecidableEq, Repr

/-- Names of the 15 classifications from the FHWA (src/lib.rs `VehicleClass`).
Code 14 shares `UnclassifiedVehicle` with code 0. -/
inductive VehicleClass where
  | Motorcycles
  | PassengerCars
  | OtherFourTireSingleUnitVehicles
  | Buses
  | TwoAxleSixTireSingleUnitTrucks
  | ThreeAxleSingleUnitTrucks
  | FourOrMoreAxleSingleUnitTrucks
  | FourOrFewerAxleSingleTrailerTrucks
  | FiveAxleSingleTrailerTrucks
  | SixOrMoreAxleSingleTrailerTrucks
  | FiveOrFewerAxleMultiTrailerTrucks
  | SixAxleMultiTrailerTrucks
  | SevenOrMoreAxleMultiTrailerTrucks
  | UnclassifiedVehicle
  deriving DecidableEq, Repr

/-- `VehicleClass::from_num` (src/lib.rs). The Rust argument is a `u8`; we
take a `Nat` and restrict theorems to the `u8` range where it matters. -/
def VehicleClass.from_num (num : Nat) : Except CountError VehicleClass :=
  match num with
  | 1 => .ok .Motorcycles
  | 2 => .ok .PassengerCars
  | 3 => .ok .OtherFourTireSingleUnitVehicles
  | 4 => .ok .Buses
  | 5 => .ok .TwoAxleSixTireSingleUnitTrucks
  | 6 => .ok .ThreeAxleSingleUnitTrucks
  | 7 => .ok .FourOrMoreAxleSingleUnitTrucks
  | 8 => .ok .FourOrFewerAxleSingleTrailerTrucks
  | 9 => .ok .FiveAxleSingleTrailerTrucks
  | 10 => .ok .SixOrMoreAxleSingleTrailerTrucks
  | 11 => .ok .FiveOrFewerAxleMultiTrailerTrucks
  | 12 => .ok .SixAxleMultiTrailerTrucks
  | 13 => .ok .SevenOrMoreAxleMultiTrailerTrucks
  | 0 => .ok .UnclassifiedVehicle
  | 14 => .ok .UnclassifiedVehicle
  | other => .error (.BadVehicleClass other)

/-- Count of vehicles by vehicle class (src/lib.rs `VehicleClassCount`).
Unclassified vehicles are counted in `c15` but also included in `c2`. -/
structure VehicleClassCount where
  dvrpc_num : Int
  direction : Direction
  c1 : Int
  c2 : Int
  c3 : Int
  c4 : Int
  c5 : Int
  c6 : Int
  c7 : Int
  c8 : Int
  c9 : Int
  c10 : Int
  c11 : Int
  c12 : Int
  c13 : Int
  c15 : Int
  total : Int
  deriving DecidableEq, Repr

/-- `VehicleClassCount::new` (src/lib.rs): a new, empty count. -/
def VehicleClassCount.new (dvrpc_num : Int) (direction : Direction) : VehicleClassCount :=
  { dvrpc_num := dvrpc_num
    direction := direction
    c1 := 0, c2 := 0, c3 := 0, c4 := 0, c5 := 0, c6 := 0, c7 := 0
    c8 := 0, c9 := 0, c10 := 0, c11 := 0, c12 := 0, c13 := 0
    c15 := 0, total := 0 }

/-- `VehicleClassCount::insert` (src/lib.rs): bump the counter selected by the
class (unclassified bumps both `c2` and `c15`), then bump `total`. -/
def VehicleClassCount.insert (c : VehicleClassCount) (cls : VehicleClass) : VehicleClassCount :=
  let c :=
    match cls with
    | .Motorcycles => { c with c1 := c.c1 + 1 }
    | .PassengerCars => { c with c2 := c.c2 + 1 }
    | .OtherFourTireSingleUnitVehicles => { c with c3 := c.c3 + 1 }
    | .Buses => { c with c4 := c.c4 + 1 }
    | .TwoAxleSixTireSingleUnitTrucks => { c with c5 := c.c5 + 1 }
    | .ThreeAxleSingleUnitTrucks => { c with c6 := c.c6 + 1 }
    | .FourOrMoreAxleSingleUnitTrucks => { c with c7 := c.c7 + 1 }
    | .FourOrFewerAxleSingleTrailerTrucks => { c with c8 := c.c8 + 1 }
    | .FiveAxleSingleTrailerTrucks => { c with c9 := c.c9 + 1 }
    | .SixOrMoreAxleSingleTrailerTrucks => { c with c10 := c.c10 + 1 }
    | .FiveOrFewerAxleMultiTrailerTrucks => { c with c11 := c.c11 + 1 }
    | .SixAxleMultiTrailerTrucks => { c with c12 := c.c12 + 1 }
    | .SevenOrMoreAxleMultiTrailerTrucks => { c with c13 := c.c13 + 1 }
    | .UnclassifiedVehicle => { c with c2 := c.c2 + 1, c15 := c.c15 + 1 }
  { c with total := c.total + 1 }

/-- Count of vehicles by speed range (src/lib.rs `SpeedRangeCount`). -/
structure SpeedRangeCount where
  dvrpc_num : Int
  direction : Direction
  s1 : Int
  s2 : Int
  s3 : Int
  s4 : Int
  s5 : Int
  s6 : Int
  s7 : Int
  s8 : Int
  s9 : Int
  s10 : Int
  s11 : Int
  s12 : Int
  s13 : Int
  s14 : Int
  total : Int
  deriving DecidableEq, Repr

/-- `SpeedRangeCount::new` (src/lib.rs): all ranges at 0. -/
def SpeedRangeCount.new (dvrpc_num : Int) (direction : Direction) : SpeedRangeCount :=
  { dvrpc_num := dvrpc_num
    direction := direction
    s1 := 0, s2 := 0, s3 := 0, s4 := 0, s5 := 0, s6 := 0, s7 := 0
    s8 := 0, s9 := 0, s10 := 0, s11 := 0, s12 := 0, s13 := 0, s14 := 0
    total := 0 }

/-- `SpeedRangeCount::insert` (src/lib.rs). A negative speed errors up front
(`is_sign_negative`); then the closed ranges `0.0..=15.0`, `15.1..=20.0`, ...,
`70.1..=75.0`, `75.1..` are tried in order; a speed matching none of them
errors; otherwise the matching range counter and `total` are bumped. -/
def SpeedRangeCount.insert (c : SpeedRangeCount) (speed : ℚ) : Except CountError SpeedRangeCount :=
  if speed < 0 then .error (.InvalidSpeed speed)
  else if 0 ≤ speed ∧ speed ≤ 15 then
    .ok { c with s1 := c.s1 + 1, total := c.total + 1 }
  else if 15.1 ≤ speed ∧ speed ≤ 20 then
    .ok { c with s2 := c.s2 + 1, total := c.total + 1 }
  else if 20.1 ≤ speed ∧ speed ≤ 25 then
    .ok { c with s3 := c.s3 + 1, total := c.total + 1 }
  else if 25.1 ≤ speed ∧ speed ≤ 30 then
    .ok { c with s4 := c.s4 + 1, total := c.total + 1 }
  else if 30.1 ≤ speed ∧ speed ≤ 35 then
    .ok { c with s5 := c.s5 + 1, total := c.total + 1 }
  else if 35.1 ≤ speed ∧ speed ≤ 40 then
    .ok { c with s6 := c.s6 + 1, total := c.total + 1 }
  else if 40.1 ≤ speed ∧ speed ≤ 45 then
    .ok { c with s7 := c.s7 + 1, total := c.total + 1 }
  else if 45.1 ≤ speed ∧ speed ≤ 50 then
    .ok { c with s8 := c.s8 + 1, total := c.total + 1 }
  else if 50.1 ≤ speed ∧ speed ≤ 55 then
    .ok { c with s9 := c.s9 + 1, total := c.total + 1 }
  else if 55.1 ≤ speed ∧ speed ≤ 60 then
    .ok { c with s10 := c.s10 + 1, total := c.total + 1 }
  else if 60.1 ≤ speed ∧ speed ≤ 65 then
    .ok { c with s11 := c.s11 + 1, total := c.total + 1 }
  else if 65.1 ≤ speed ∧ speed ≤ 70 then
    .ok { c with s12 := c.s12 + 1, total := c.total + 1 }
  else if 70.1 ≤ speed ∧ speed ≤ 75 then
    .ok { c with s13 := c.s13 + 1, total := c.total + 1 }
  else if 75.1 ≤ speed then
    .ok { c with s14 := c.s14 + 1, total := c.total + 1 }
  else .error (.InvalidSpeed speed)

example : VehicleClass.from_num 14 = .ok .UnclassifiedVehicle := rfl
example : VehicleClass.from_num 15 = .error (.BadVehicleClass 15) := rfl

/-!
## The data-quality checker (src/check_data.rs)

Each rule of `check` is embedded as a function over the rows the corresponding
SQL query returns; the `warn!` log calls become returned data (the warned slot
names, the warned totals, or a `Bool`).
-/

/-- One row of the 19 hourly columns of the TC_VOLCOUNT table
(src/check_data.rs, consecutive-zero check): `am4 .. am11, pm12, pm1 .. pm10`,
each nullable. -/
structure VolcountRow where
  am4 : Option Nat
  am5 : Option Nat
  am6 : Option Nat
  am7 : Option Nat
  am8 : Option Nat
  am9 : Option Nat
  am10 : Option Nat
  am11 : Option Nat
  pm12 : Option Nat
  pm1 : Option Nat
  pm2 : Option Nat
  pm3 : Option Nat
  pm4 : Option Nat
  pm5 : Option Nat
  pm6 : Option Nat
  pm7 : Option Nat
  pm8 : Option Nat
  pm9 : Option Nat
  pm10 : Option Nat
  deriving DecidableEq, Repr

/-- Ordered insertion into an association list sorted by key: the embedding of
`BTreeMap::insert` for `&str` keys (iteration of the map visits keys in this
sorted order, which for `&str` is lexicographic byte order). -/
def btreeInsert (k : String) (v : Option Nat) :
    List (String × Option Nat) → List (String × Option Nat)
  | [] => [(k, v)]
  | (k', v') :: rest =>
    if k.data < k'.data then (k, v) :: (k', v') :: rest
    else if k = k' then (k, v) :: rest
    else (k', v') :: btreeInsert k v rest

/-- The `hourly` BTreeMap of the consecutive-zero check (src/check_data.rs):
the 19 slots inserted under their column names, in source order. -/
def hourlyMap (r : VolcountRow) : List (String × Option Nat) :=
  let m := btreeInsert "am4" r.am4 []
  let m := btreeInsert "am5" r.am5 m
  let m := btreeInsert "am6" r.am6 m
  let m := btreeInsert "am7" r.am7 m
  let m := btreeInsert "am8" r.am8 m
  let m := btreeInsert "am9" r.am9 m
  let m := btreeInsert "am10" r.am10 m
  let m := btreeInsert "am11" r.am11 m
  let m := btreeInsert "pm12" r.pm12 m
  let m := btreeInsert "pm1" r.pm1 m
  let m := btreeInsert "pm2" r.pm2 m
  let m := btreeInsert "pm3" r.pm3 m
  let m := btreeInsert "pm4" r.pm4 m
  let m := btreeInsert "pm5" r.pm5 m
  let m := btreeInsert "pm6" r.pm6 m
  let m := btreeInsert "pm7" r.pm7 m
  let m := btreeInsert "pm8" r.pm8 m
  let m := btreeInsert "pm9" r.pm9 m
  btreeInsert "pm10" r.pm10 m

/-- The consecutive-zero loop of `check` (src/check_data.rs): walk the hourly
entries in map-iteration order carrying the `consecutive_zeros` counter; a slot
whose value `is_some_and(|c| c == 0)` increments it, any other slot resets it
to 0; a warning (the slot name) is emitted whenever the counter exceeds 1. -/
def consecutiveZeroLoop : Nat → List (String × Option Nat) → List String
  | _, [] => []
  | cz, (hour, count) :: rest =>
    let cz := if count.any (fun c => c == 0) then cz + 1 else 0
    (if 1 < cz then [hour] else []) ++ consecutiveZeroLoop cz rest

/-- The consecutive-zero check for one TC_VOLCOUNT row (src/check_data.rs):
build the `hourly` BTreeMap, then run the counter loop over it. -/
def consecutiveZeroCheck (r : VolcountRow) : List String :=
  consecutiveZeroLoop 0 (hourlyMap r)

/-- Modelled from the spec (the claim's reading of the consecutive-zero
check): inspect the slots in chronological order `am4 .. pm10`, treat a null
hourly total the same as a zero, and warn on the second and each subsequent
slot of a consecutive-zero run. Used only to compare against the code's
`consecutiveZeroCheck`. -/
def consecutiveZeroLoopChrono : Nat → List (String × Option Nat) → List String
  | _, [] => []
  | cz, (hour, count) :: rest =>
    let cz := if count.getD 0 == 0 then cz + 1 else 0
    (if 1 < cz then [hour] else []) ++ consecutiveZeroLoopChrono cz rest

/-- The 19 slots in chronological order, 4am through 10pm. -/
def chronoSlots (r : VolcountRow) : List (String × Option Nat) :=
  [("am4", r.am4), ("am5", r.am5), ("am6", r.am6), ("am7", r.am7),
   ("am8", r.am8), ("am9", r.am9), ("am10", r.am10), ("am11", r.am11),
   ("pm12", r.pm12), ("pm1", r.pm1), ("pm2", r.pm2), ("pm3", r.pm3),
   ("pm4", r.pm4), ("pm5", r.pm5), ("pm6", r.pm6), ("pm7", r.pm7),
   ("pm8", r.pm8), ("pm9", r.pm9), ("pm10", r.pm10)]

/-- Modelled from the spec: the consecutive-zero check as the claim words it
(chronological order, null-as-zero). -/
def consecutiveZeroCheckChrono (r : VolcountRow) : List String :=
  consecutiveZeroLoopChrono 0 (chronoSlots r)

/-- Warnings characterised pairwise: a slot is warned about exactly when its
own value and the value of the slot preceding it (in the traversal order) are
both an observed zero. The Boolean argument says whether the previous slot was
an observed zero. -/
def adjacentZeroWarnings : Bool → List (String × Option Nat) → List String
  | _, [] => []
  | prevZero, (hour, count) :: rest =>
    let z := count.any (fun c => c == 0)
    (if z && prevZero then [hour] else []) ++ adjacentZeroWarnings z rest

/-- The directional-proportion threshold from src/check_data.rs: one
direction of a bidirectional count having less than this share is considered
abnormal. -/
def DIR_PROPORTION_LOWER_BOUND : ℚ := 0.40

/-- The accumulation step of the directional-balance check
(src/check_data.rs): `*count_by_dir.entry(direction).or_insert(total) += total`.
A vacant entry is first seeded with `total` and then `total` is added to it
again, so the first row of each direction is counted twice. -/
def updateDir : List (String × Nat) → String → Nat → List (String × Nat)
  | [], d, t => [(d, t + t)]
  | (d', v) :: rest, d, t =>
    if d = d' then (d', v + t) :: rest else (d', v) :: updateDir rest d t

/-- The `count_by_dir` map of the directional-balance check
(src/check_data.rs), built from the `(totalcount, cntdir)` rows of
TC_VOLCOUNT. -/
def countByDir (rows : List (Nat × String)) : List (String × Nat) :=
  rows.foldl (fun m row => updateDir m row.2 row.1) []

/-- The warning decision of the directional-balance check (src/check_data.rs):
with more than one direction present, take the smallest and largest
per-direction figures, and warn when the smaller's share of their sum is below
`DIR_PROPORTION_LOWER_BOUND`. (The Rust code divides `f32`s, which at a zero
combined total yields NaN and therefore no warning; the zero-total case is
made explicit here and is not exercised by any theorem below.) -/
def dirBalanceWarn (rows : List (Nat × String)) : Bool :=
  let m := countByDir rows
  if 1 < m.length then
    match m.map Prod.snd with
    | [] => false
    | v :: vs =>
      let mn := vs.foldl Nat.min v
      let mx := vs.foldl Nat.max v
      let tot := mn + mx
      if tot = 0 then false
      else decide ((mn : ℚ) / (tot : ℚ) < DIR_PROPORTION_LOWER_BOUND)
  else false

/-- Modelled from the spec: the per-direction figure the claim describes, the
plain sum of the row totals for that direction. Used only to compare against
the code's `countByDir`. -/
def sumForDir (rows : List (Nat × String)) (d : String) : Nat :=
  (rows.filter (fun r => r.2 = d)).foldl (fun acc r => acc + r.1) 0

/-- Unusually high count for bicycles in a 15-minute period
(src/check_data.rs). -/
def BIKE_COUNT_MAX : Nat := 20

/-- The bicycle outlier scan of `check` (src/check_data.rs): walk the
15-minute totals; at the first total exceeding `BIKE_COUNT_MAX`, warn (the
warned total is returned) and `break`. -/
def bikeCheckScan : List Nat → List Nat
  | [] => []
  | t :: rest => if BIKE_COUNT_MAX < t then [t] else bikeCheckScan rest

/-!
## The aggregator (src/lib.rs `create_speed_and_class_count`)

`HashMap` becomes an insertion-ordered association list; the `error!` log
calls become a returned error count; the `.unwrap()` panic on a channel-2
observation of a single-direction count becomes the `none` result of the whole
run (a panic aborts the batch, producing no maps at all).
-/

/-- A time of day, as used by `time::Time` (src/lib.rs). Only the fields
`time_bin` touches are modelled. -/
structure CTime where
  hour : Nat
  minute : Nat
  second : Nat
  deriving DecidableEq, Repr

/-- `Time::replace_second`: fails (`ComponentRange`) when the value is out of
range. -/
def CTime.replace_second (t : CTime) (s : Nat) : Option CTime :=
  if s ≤ 59 then some { t with second := s } else none

/-- `Time::replace_minute`: fails (`ComponentRange`) when the value is out of
range. -/
def CTime.replace_minute (t : CTime) (m : Nat) : Option CTime :=
  if m ≤ 59 then some { t with minute := m } else none

/-- `time_bin` (src/lib.rs): zero the seconds, then floor the minute to
0/15/30/45. -/
def time_bin (t : CTime) : Option CTime :=
  (t.replace_second 0).bind fun t =>
    if t.minute ≤ 14 then t.replace_minute 0
    else if t.minute ≤ 29 then t.replace_minute 15
    else if t.minute ≤ 44 then t.replace_minute 30
    else t.replace_minute 45

/-- A vehicle that has been counted, with no binning applied to it
(src/lib.rs `CountedVehicle`). The date is abstracted to an integer day
identifier; the class code has already been resolved by
`VehicleClass::from_num` at construction. -/
structure CountedVehicle where
  date : Int
  time : CTime
  channel : Nat
  vclass : VehicleClass
  speed : ℚ
  deriving DecidableEq, Repr

/-- The metadata of a count (src/lib.rs `CountMetadata`). -/
structure CountMetadata where
  technician : String
  dvrpc_num : Int
  directions : Directions
  counter_id : Int
  speed_limit : Option Int
  deriving DecidableEq, Repr

/-- A date plus a time (`time::PrimitiveDateTime`). -/
structure PrimitiveDateTime where
  date : Int
  time : CTime
  deriving DecidableEq, Repr

/-- Identifies the time and lane for binning vehicle class/speeds
(src/lib.rs `BinnedCountKey`). -/
structure BinnedCountKey where
  datetime : PrimitiveDateTime
  channel : Nat
  deriving DecidableEq, Repr

/-- Look a key up in an association list. -/
def alistGet? {κ α : Type} [DecidableEq κ] : List (κ × α) → κ → Option α
  | [], _ => none
  | (k', v) :: rest, k => if k = k' then some v else alistGet? rest k

/-- Replace the value stored under a key already present in an association
list (keys not present are untouched). -/
def alistSet {κ α : Type} [DecidableEq κ] : List (κ × α) → κ → α → List (κ × α)
  | [], _, _ => []
  | (k', v') :: rest, k, v =>
    if k = k' then (k', v) :: rest else (k', v') :: alistSet rest k v

/-- `HashMap::entry(key).or_insert(default)`: return the value now stored
under the key together with the map with the entry guaranteed present (a new
entry holds the default). -/
def alistEntry {κ α : Type} [DecidableEq κ] (m : List (κ × α)) (k : κ) (d : α) :
    α × List (κ × α) :=
  match alistGet? m k with
  | some v => (v, m)
  | none => (d, m ++ [(k, d)])

/-- `FifteenMinuteSpeedRangeCount` (src/lib.rs): rows of TC_SPECOUNT. -/
abbrev FifteenMinuteSpeedRangeCount := List (BinnedCountKey × SpeedRangeCount)

/-- `FifteenMinuteVehicleClassCount` (src/lib.rs): rows of TC_CLACOUNT. -/
abbrev FifteenMinuteVehicleClassCount := List (BinnedCountKey × VehicleClassCount)

/-- The pair of aggregation maps the loop of `create_speed_and_class_count`
threads through its iterations. -/
abbrev AggMaps := FifteenMinuteSpeedRangeCount × FifteenMinuteVehicleClassCount

/-- The loop body of `create_speed_and_class_count` (src/lib.rs) after the
direction has been resolved from the channel: bin the time (a binning failure
is logged and skips the record), ensure a speed entry exists for the key, try
the speed insert (a failure is logged and skips the record, after the
`or_insert`), then ensure a class entry exists and apply the class insert.
Returns the updated maps and the number of errors logged (0 or 1). -/
def aggStepWithDir (md : CountMetadata) (maps : AggMaps) (v : CountedVehicle)
    (direction : Direction) : AggMaps × Nat :=
  match time_bin v.time with
  | none => (maps, 1)
  | some time_part =>
    let key : BinnedCountKey := ⟨⟨v.date, time_part⟩, v.channel⟩
    let sm := alistEntry maps.1 key (SpeedRangeCount.new md.dvrpc_num direction)
    match sm.1.insert v.speed with
    | .error _ => ((sm.2, maps.2), 1)
    | .ok src' =>
      let m1 := alistSet sm.2 key src'
      let cm := alistEntry maps.2 key (VehicleClassCount.new md.dvrpc_num direction)
      let m2 := alistSet cm.2 key (cm.1.insert v.vclass)
      ((m1, m2), 0)

/-- One iteration of the loop of `create_speed_and_class_count` (src/lib.rs):
resolve the direction from the channel (channel 1 is `direction1`, channel 2
is `direction2.unwrap()` — a panic, modelled as `none`, when `direction2` is
absent; any other channel is logged and skipped). -/
def aggStep (md : CountMetadata) (maps : AggMaps) (v : CountedVehicle) :
    Option (AggMaps × Nat) :=
  match v.channel with
  | 1 => some (aggStepWithDir md maps v md.directions.direction1)
  | 2 =>
    match md.directions.direction2 with
    | some d => some (aggStepWithDir md maps v d)
    | none => none
  | _ => some (maps, 1)

/-- The result of one aggregation pass: the two maps that
`create_speed_and_class_count` returns, plus the number of records logged as
processing errors (the `error!` calls). -/
structure AggResult where
  speedMap : FifteenMinuteSpeedRangeCount
  classMap : FifteenMinuteVehicleClassCount
  errors : Nat
  deriving DecidableEq, Repr

/-- The loop of `create_speed_and_class_count` (src/lib.rs), folded over the
remaining observations. `none` models the loop panicking. -/
def aggGo (md : CountMetadata) : AggMaps → Nat → List CountedVehicle → Option AggResult
  | maps, errs, [] => some ⟨maps.1, maps.2, errs⟩
  | maps, errs, v :: rest =>
    match aggStep md maps v with
    | none => none
    | some (maps', d) => aggGo md maps' (errs + d) rest

/-- `create_speed_and_class_count` (src/lib.rs): create the 15-minute binned
class and speed counts from the raw observations. -/
def create_speed_and_class_count (md : CountMetadata) (counts : List CountedVehicle) :
    Option AggResult :=
  aggGo md ([], []) 0 counts

/-!
## Derived notions used by the theorems
-/

/-- The sum of the 13 FHWA class counters (excluding the unclassified counter
`c15`). -/
def VehicleClassCount.classSum (c : VehicleClassCount) : Int :=
  c.c1 + c.c2 + c.c3 + c.c4 + c.c5 + c.c6 + c.c7 + c.c8 + c.c9 + c.c10 +
    c.c11 + c.c12 + c.c13

/-- Apply `VehicleClassCount.insert` for a whole sequence of observations. -/
def VehicleClassCount.applyAll (c : VehicleClassCount) (cs : List VehicleClass) :
    VehicleClassCount :=
  cs.foldl VehicleClassCount.insert c

/-- The 14 speed-range counters of a `SpeedRangeCount`, in order. -/
def SpeedRangeCount.bins (c : SpeedRangeCount) : List Int :=
  [c.s1, c.s2, c.s3, c.s4, c.s5, c.s6, c.s7, c.s8, c.s9, c.s10, c.s11, c.s12,
   c.s13, c.s14]

/-- Increment position `i` of a list of counters. -/
def bumpNth (l : List Int) (i : Nat) : List Int :=
  l.set i (l.getD i 0 + 1)

/-- The speeds strictly inside one of the gaps the range chain of
`SpeedRangeCount.insert` leaves uncovered: `(15.0, 15.1)`, `(20.0, 20.1)`,
..., `(75.0, 75.1)`. -/
def speedGap (s : ℚ) : Prop :=
  (15 < s ∧ s < 15.1) ∨ (20 < s ∧ s < 20.1) ∨ (25 < s ∧ s < 25.1) ∨
  (30 < s ∧ s < 30.1) ∨ (35 < s ∧ s < 35.1) ∨ (40 < s ∧ s < 40.1) ∨
  (45 < s ∧ s < 45.1) ∨ (50 < s ∧ s < 50.1) ∨ (55 < s ∧ s < 55.1) ∨
  (60 < s ∧ s < 60.1) ∨ (65 < s ∧ s < 65.1) ∨ (70 < s ∧ s < 70.1) ∨
  (75 < s ∧ s < 75.1)

/-- An observation whose channel the aggregator can look up: 1 or 2. -/
def goodChannel (v : CountedVehicle) : Bool :=
  v.channel == 1 || v.channel == 2

/-- How many observations of a batch have a channel other than 1 and 2. -/
def badChannelCount (counts : List CountedVehicle) : Nat :=
  counts.countP (fun v => !(goodChannel v))

/-!
## Theorems
-/

/-- Claim C5: inserting an `UnclassifiedVehicle` observation increments `c2`,
`c15` and `total` by exactly one each and changes nothing else; in particular,
into a fresh count it yields `c2 = 1`, `c15 = 1`, `total = 1` with every
other class counter still 0. -/
theorem unclassified_insert_increments_c2_c15_total (c : VehicleClassCount)
    (d : Int) (dir : Direction) :
    c.insert .UnclassifiedVehicle =
      { c with c2 := c.c2 + 1, c15 := c.c15 + 1, total := c.total + 1 } ∧
    (VehicleClassCount.new d dir).insert .UnclassifiedVehicle =
      { VehicleClassCount.new d dir with c2 := 1, c15 := 1, total := 1 } := by
  constructor <;> rfl

/-- Every `insert` preserves the running invariant of claim C6: the 13 class
counters sum to `total`, and the unclassified counter never exceeds the
passenger-car counter. -/
theorem insert_preserves_classSum_invariant (c : VehicleClassCount) (cls : VehicleClass)
    (h : c.classSum = c.total ∧ c.c15 ≤ c.c2) :
    (c.insert cls).classSum = (c.insert cls).total ∧
      (c.insert cls).c15 ≤ (c.insert cls).c2 := by
  obtain ⟨h1, h2⟩ := h
  cases cls <;>
    simp only [VehicleClassCount.insert, VehicleClassCount.classSum] at * <;> omega

/-- Claim C6: for every `VehicleClassCount` reachable from `new` by a sequence
of `insert` calls, the sum of the 13 class counters equals `total`, hence
exceeds `total − c15` by exactly `c15` (summing the per-class fields
double-counts unclassified vehicles), and `c15 ≤ c2`. -/
theorem class_counter_sum_invariant (d : Int) (dir : Direction) (cs : List VehicleClass) :
    ((VehicleClassCount.new d dir).applyAll cs).classSum =
      ((VehicleClassCount.new d dir).applyAll cs).total ∧
    ((VehicleClassCount.new d dir).applyAll cs).classSum -
      (((VehicleClassCount.new d dir).applyAll cs).total -
        ((VehicleClassCount.new d dir).applyAll cs).c15) =
      ((VehicleClassCount.new d dir).applyAll cs).c15 ∧
    ((VehicleClassCount.new d dir).applyAll cs).c15 ≤
      ((VehicleClassCount.new d dir).applyAll cs).c2 := by
  have main : ∀ (cs : List VehicleClass) (c : VehicleClassCount),
      c.classSum = c.total ∧ c.c15 ≤ c.c2 →
      (c.applyAll cs).classSum = (c.applyAll cs).total ∧
        (c.applyAll cs).c15 ≤ (c.applyAll cs).c2 := by
    intro cs
    induction cs with
    | nil => intro c h; exact h
    | cons k rest ih =>
      intro c h
      exact ih (c.insert k) (insert_preserves_classSum_invariant c k h)
  have base : (VehicleClassCount.new d dir).classSum = (VehicleClassCount.new d dir).total ∧
      (VehicleClassCount.new d dir).c15 ≤ (VehicleClassCount.new d dir).c2 := by
    constructor <;> rfl
  obtain ⟨h1, h2⟩ := main cs (VehicleClassCount.new d dir) base
  exact ⟨h1, by omega, h2⟩

/-- Claim C8: `VehicleClass.from_num` returns `Ok` for exactly the codes 0
through 14: codes 1–13 map in FHWA order, 0 and 14 both map to
`UnclassifiedVehicle`, and every larger `u8` code yields the
invalid-vehicle-class error carrying the code. -/
theorem from_num_ok_exactly_codes_0_to_14 :
    (∀ n : Nat, 14 < n → n ≤ 255 → VehicleClass.from_num n = .error (.BadVehicleClass n)) ∧
    VehicleClass.from_num 0 = .ok .UnclassifiedVehicle ∧
    VehicleClass.from_num 1 = .ok .Motorcycles ∧
    VehicleClass.from_num 2 = .ok .PassengerCars ∧
    VehicleClass.from_num 3 = .ok .OtherFourTireSingleUnitVehicles ∧
    VehicleClass.from_num 4 = .ok .Buses ∧
    VehicleClass.from_num 5 = .ok .TwoAxleSixTireSingleUnitTrucks ∧
    VehicleClass.from_num 6 = .ok .ThreeAxleSingleUnitTrucks ∧
    VehicleClass.from_num 7 = .ok .FourOrMoreAxleSingleUnitTrucks ∧
    VehicleClass.from_num 8 = .ok .FourOrFewerAxleSingleTrailerTrucks ∧
    VehicleClass.from_num 9 = .ok .FiveAxleSingleTrailerTrucks ∧
    VehicleClass.from_num 10 = .ok .SixOrMoreAxleSingleTrailerTrucks ∧
    VehicleClass.from_num 11 = .ok .FiveOrFewerAxleMultiTrailerTrucks ∧
    VehicleClass.from_num 12 = .ok .SixAxleMultiTrailerTrucks ∧
    VehicleClass.from_num 13 = .ok .SevenOrMoreAxleMultiTrailerTrucks ∧
    VehicleClass.from_num 14 = .ok .UnclassifiedVehicle := by
  refine ⟨?_, rfl, rfl, rfl, rfl, rfl, rfl, rfl, rfl, rfl, rfl, rfl, rfl, rfl, rfl, rfl⟩
  intro n h1 _h2
  obtain ⟨m, rfl⟩ : ∃ m, n = m + 15 := ⟨n - 15, by omega⟩
  rfl

/-- Claim C8 witness: code 15 is rejected with the error carrying 15. -/
theorem from_num_ok_exactly_codes_0_to_14_witness :
    VehicleClass.from_num 15 = .error (.BadVehicleClass 15) :=
  from_num_ok_exactly_codes_0_to_14.1 15 (by norm_num) (by norm_num)

/-- Claim C9: the bicycle outlier scan reports exactly the first 15-minute
total exceeding `BIKE_COUNT_MAX` (and stops there), so it emits at most one
warning, warns precisely when some total exceeds 20, and on `[5, 12, 21, 30]`
warns exactly once, at 21. -/
theorem bike_scan_warns_once_at_first_violation (l : List Nat) :
    bikeCheckScan l = (l.find? (fun t => decide (BIKE_COUNT_MAX < t))).toList ∧
    (bikeCheckScan l).length ≤ 1 ∧
    bikeCheckScan [5, 12, 21, 30] = [21] := by
  have h1 : ∀ l' : List Nat,
      bikeCheckScan l' = (l'.find? (fun t => decide (BIKE_COUNT_MAX < t))).toList := by
    intro l'
    induction l' with
    | nil => rfl
    | cons t rest ih =>
      by_cases h : BIKE_COUNT_MAX < t
      · simp [bikeCheckScan, h, List.find?_cons_of_pos]
      · simp [bikeCheckScan, h, List.find?_cons_of_neg, ih]
  refine ⟨h1 l, ?_, by decide⟩
  rw [h1 l]
  cases l.find? (fun t => decide (BIKE_COUNT_MAX < t)) <;> simp

/-- Reduction of `SpeedRangeCount.insert` on the negative-speed branch. -/
theorem speed_insert_eq_neg (c : SpeedRangeCount) (s : ℚ) (h : s < 0) :
    c.insert s = .error (.InvalidSpeed s) := by
  unfold SpeedRangeCount.insert
  rw [if_pos h]

/-- Reduction of `SpeedRangeCount.insert` on the `s1` branch. -/
theorem speed_insert_eq_bin1 (c : SpeedRangeCount) (s : ℚ)
    (hn : ¬ s < 0)
    (h : 0 ≤ s ∧ s ≤ 15) :
    c.insert s = .ok { c with s1 := c.s1 + 1, total := c.total + 1 } := by
  unfold SpeedRangeCount.insert
  rw [if_neg hn, if_pos h]

/-- Reduction of `SpeedRangeCount.insert` on the `s2` branch. -/
theorem speed_insert_eq_bin2 (c : SpeedRangeCount) (s : ℚ)
    (hn : ¬ s < 0)
    (g1 : ¬ (0 ≤ s ∧ s ≤ 15))
    (h : 15.1 ≤ s ∧ s ≤ 20) :
    c.insert s = .ok { c with s2 := c.s2 + 1, total := c.total + 1 } := by
  unfold SpeedRangeCount.insert
  rw [if_neg hn, if_neg g1, if_pos h]

/-- Reduction of `SpeedRangeCount.insert` on the `s3` branch. -/
theorem speed_insert_eq_bin3 (c : SpeedRangeCount) (s : ℚ)
    (hn : ¬ s < 0)
    (g1 : ¬ (0 ≤ s ∧ s ≤ 15))
    (g2 : ¬ (15.1 ≤ s ∧ s ≤ 20))
    (h : 20.1 ≤ s ∧ s ≤ 25) :
    c.insert s = .ok { c with s3 := c.s3 + 1, total := c.total + 1 } := by
  unfold SpeedRangeCount.insert
  rw [if_neg hn, if_neg g1, if_neg g2, if_pos h]

/-- Reduction of `SpeedRangeCount.insert` on the `s4` branch. -/
theorem speed_insert_eq_bin4 (c : SpeedRangeCount) (s : ℚ)
    (hn : ¬ s < 0)
    (g1 : ¬ (0 ≤ s ∧ s ≤ 15))
    (g2 : ¬ (15.1 ≤ s ∧ s ≤ 20))
    (g3 : ¬ (20.1 ≤ s ∧ s ≤ 25))
    (h : 25.1 ≤ s ∧ s ≤ 30) :
    c.insert s = .ok { c with s4 := c.s4 + 1, total := c.total + 1 } := by
  unfold SpeedRangeCount.insert
  rw [if_neg hn, if_neg g1, if_neg g2, if_neg g3, if_pos h]

/-- Reduction of `SpeedRangeCount.insert` on the `s5` branch. -/
theorem speed_insert_eq_bin5 (c : SpeedRangeCount) (s : ℚ)
    (hn : ¬ s < 0)
    (g1 : ¬ (0 ≤ s ∧ s ≤ 15))
    (g2 : ¬ (15.1 ≤ s ∧ s ≤ 20))
    (g3 : ¬ (20.1 ≤ s ∧ s ≤ 25))
    (g4 : ¬ (25.1 ≤ s ∧ s ≤ 30))
    (h : 30.1 ≤ s ∧ s ≤ 35) :
    c.insert s = .ok { c with s5 := c.s5 + 1, total := c.total + 1 } := by
  unfold SpeedRangeCount.insert
  rw [if_neg hn, if_neg g1, if_neg g2, if_neg g3, if_neg g4, if_pos h]

/-- Reduction of `SpeedRangeCount.insert` on the `s6` branch. -/
theorem speed_insert_eq_bin6 (c : SpeedRangeCount) (s : ℚ)
    (hn : ¬ s < 0)
    (g1 : ¬ (0 ≤ s ∧ s ≤ 15))
    (g2 : ¬ (15.1 ≤ s ∧ s ≤ 20))
    (g3 : ¬ (20.1 ≤ s ∧ s ≤ 25))
    (g4 : ¬ (25.1 ≤ s ∧ s ≤ 30))
    (g5 : ¬ (30.1 ≤ s ∧ s ≤ 35))
    (h : 35.1 ≤ s ∧ s ≤ 40) :
    c.insert s = .ok { c with s6 := c.s6 + 1, total := c.total + 1 } := by
  unfold SpeedRangeCount.insert
  rw [if_neg hn, if_neg g1, if_neg g2, if_neg g3, if_neg g4, if_neg g5, if_pos h]

/-- Reduction of `SpeedRangeCount.insert` on the `s7` branch. -/
theorem speed_insert_eq_bin7 (c : SpeedRangeCount) (s : ℚ)
    (hn : ¬ s < 0)
    (g1 : ¬ (0 ≤ s ∧ s ≤ 15))
    (g2 : ¬ (15.1 ≤ s ∧ s ≤ 20))
    (g3 : ¬ (20.1 ≤ s ∧ s ≤ 25))
    (g4 : ¬ (25.1 ≤ s ∧ s ≤ 30))
    (g5 : ¬ (30.1 ≤ s ∧ s ≤ 35))
    (g6 : ¬ (35.1 ≤ s ∧ s ≤ 40))
    (h : 40.1 ≤ s ∧ s ≤ 45) :
    c.insert s = .ok { c with s7 := c.s7 + 1, total := c.total + 1 } := by
  unfold SpeedRangeCount.insert
  rw [if_neg hn, if_neg g1, if_neg g2, if_neg g3, if_neg g4, if_neg g5, if_neg g6, if_pos h]

/-- Reduction of `SpeedRangeCount.insert` on the `s8` branch. -/
theorem speed_insert_eq_bin8 (c : SpeedRangeCount) (s : ℚ)
    (hn : ¬ s < 0)
    (g1 : ¬ (0 ≤ s ∧ s ≤ 15))
    (g2 : ¬ (15.1 ≤ s ∧ s ≤ 20))
    (g3 : ¬ (20.1 ≤ s ∧ s ≤ 25))
    (g4 : ¬ (25.1 ≤ s ∧ s ≤ 30))
    (g5 : ¬ (30.1 ≤ s ∧ s ≤ 35))
    (g6 : ¬ (35.1 ≤ s ∧ s ≤ 40))
    (g7 : ¬ (40.1 ≤ s ∧ s ≤ 45))
    (h : 45.1 ≤ s ∧ s ≤ 50) :
    c.insert s = .ok { c with s8 := c.s8 + 1, total := c.total + 1 } := by
  unfold SpeedRangeCount.insert
  rw [if_neg hn, if_neg g1, if_neg g2, if_neg g3, if_neg g4, if_neg g5, if_neg g6, if_neg g7, if_pos h]

/-- Reduction of `SpeedRangeCount.insert` on the `s9` branch. -/
theorem speed_insert_eq_bin9 (c : SpeedRangeCount) (s : ℚ)
    (hn : ¬ s < 0)
    (g1 : ¬ (0 ≤ s ∧ s ≤ 15))
    (g2 : ¬ (15.1 ≤ s ∧ s ≤ 20))
    (g3 : ¬ (20.1 ≤ s ∧ s ≤ 25))
    (g4 : ¬ (25.1 ≤ s ∧ s ≤ 30))
    (g5 : ¬ (30.1 ≤ s ∧ s ≤ 35))
    (g6 : ¬ (35.1 ≤ s ∧ s ≤ 40))
    (g7 : ¬ (40.1 ≤ s ∧ s ≤ 45))
    (g8 : ¬ (45.1 ≤ s ∧ s ≤ 50))
    (h : 50.1 ≤ s ∧ s ≤ 55) :
    c.insert s = .ok { c with s9 := c.s9 + 1, total := c.total + 1 } := by
  unfold SpeedRangeCount.insert
  rw [if_neg hn, if_neg g1, if_neg g2, if_neg g3, if_neg g4, if_neg g5, if_neg g6, if_neg g7, if_neg g8, if_pos h]

/-- Reduction of `SpeedRangeCount.insert` on the `s10` branch. -/
theorem speed_insert_eq_bin10 (c : SpeedRangeCount) (s : ℚ)
    (hn : ¬ s < 0)
    (g1 : ¬ (0 ≤ s ∧ s ≤ 15))
    (g2 : ¬ (15.1 ≤ s ∧ s ≤ 20))
    (g3 : ¬ (20.1 ≤ s ∧ s ≤ 25))
    (g4 : ¬ (25.1 ≤ s ∧ s ≤ 30))
    (g5 : ¬ (30.1 ≤ s ∧ s ≤ 35))
    (g6 : ¬ (35.1 ≤ s ∧ s ≤ 40))
    (g7 : ¬ (40.1 ≤ s ∧ s ≤ 45))
    (g8 : ¬ (45.1 ≤ s ∧ s ≤ 50))
    (g9 : ¬ (50.1 ≤ s ∧ s ≤ 55))
    (h : 55.1 ≤ s ∧ s ≤ 60) :
    c.insert s = .ok { c with s10 := c.s10 + 1, total := c.total + 1 } := by
  unfold SpeedRangeCount.insert
  rw [if_neg hn, if_neg g1, if_neg g2, if_neg g3, if_neg g4, if_neg g5, if_neg g6, if_neg g7, if_neg g8, if_neg g9, if_pos h]

/-- Reduction of `SpeedRangeCount.insert` on the `s11` branch. -/
theorem speed_insert_eq_bin11 (c : SpeedRangeCount) (s : ℚ)
    (hn : ¬ s < 0)
    (g1 : ¬ (0 ≤ s ∧ s ≤ 15))
    (g2 : ¬ (15.1 ≤ s ∧ s ≤ 20))
    (g3 : ¬ (20.1 ≤ s ∧ s ≤ 25))
    (g4 : ¬ (25.1 ≤ s ∧ s ≤ 30))
    (g5 : ¬ (30.1 ≤ s ∧ s ≤ 35))
    (g6 : ¬ (35.1 ≤ s ∧ s ≤ 40))
    (g7 : ¬ (40.1 ≤ s ∧ s ≤ 45))
    (g8 : ¬ (45.1 ≤ s ∧ s ≤ 50))
    (g9 : ¬ (50.1 ≤ s ∧ s ≤ 55))
    (g10 : ¬ (55.1 ≤ s ∧ s ≤ 60))
    (h : 60.1 ≤ s ∧ s ≤ 65) :
    c.insert s = .ok { c with s11 := c.s11 + 1, total := c.total + 1 } := by
  unfold SpeedRangeCount.insert
  rw [if_neg hn, if_neg g1, if_neg g2, if_neg g3, if_neg g4, if_neg g5, if_neg g6, if_neg g7, if_neg g8, if_neg g9, if_neg g10, if_pos h]

/-- Reduction of `SpeedRangeCount.insert` on the `s12` branch. -/
theorem speed_insert_eq_bin12 (c : SpeedRangeCount) (s : ℚ)
    (hn : ¬ s < 0)
    (g1 : ¬ (0 ≤ s ∧ s ≤ 15))
    (g2 : ¬ (15.1 ≤ s ∧ s ≤ 20))
    (g3 : ¬ (20.1 ≤ s ∧ s ≤ 25))
    (g4 : ¬ (25.1 ≤ s ∧ s ≤ 30))
    (g5 : ¬ (30.1 ≤ s ∧ s ≤ 35))
    (g6 : ¬ (35.1 ≤ s ∧ s ≤ 40))
    (g7 : ¬ (40.1 ≤ s ∧ s ≤ 45))
    (g8 : ¬ (45.1 ≤ s ∧ s ≤ 50))
    (g9 : ¬ (50.1 ≤ s ∧ s ≤ 55))
    (g10 : ¬ (55.1 ≤ s ∧ s ≤ 60))
    (g11 : ¬ (60.1 ≤ s ∧ s ≤ 65))
    (h : 65.1 ≤ s ∧ s ≤ 70) :
    c.insert s = .ok { c with s12 := c.s12 + 1, total := c.total + 1 } := by
  unfold SpeedRangeCount.insert
  rw [if_neg hn, if_neg g1, if_neg g2, if_neg g3, if_neg g4, if_neg g5, if_neg g6, if_neg g7, if_neg g8, if_neg g9, if_neg g10, if_neg g11, if_pos h]

/-- Reduction of `SpeedRangeCount.insert` on the `s13` branch. -/
theorem speed_insert_eq_bin13 (c : SpeedRangeCount) (s : ℚ)
    (hn : ¬ s < 0)
    (g1 : ¬ (0 ≤ s ∧ s ≤ 15))
    (g2 : ¬ (15.1 ≤ s ∧ s ≤ 20))
    (g3 : ¬ (20.1 ≤ s ∧ s ≤ 25))
    (g4 : ¬ (25.1 ≤ s ∧ s ≤ 30))
    (g5 : ¬ (30.1 ≤ s ∧ s ≤ 35))
    (g6 : ¬ (35.1 ≤ s ∧ s ≤ 40))
    (g7 : ¬ (40.1 ≤ s ∧ s ≤ 45))
    (g8 : ¬ (45.1 ≤ s ∧ s ≤ 50))
    (g9 : ¬ (50.1 ≤ s ∧ s ≤ 55))
    (g10 : ¬ (55.1 ≤ s ∧ s ≤ 60))
    (g11 : ¬ (60.1 ≤ s ∧ s ≤ 65))
    (g12 : ¬ (65.1 ≤ s ∧ s ≤ 70))
    (h : 70.1 ≤ s ∧ s ≤ 75) :
    c.insert s = .ok { c with s13 := c.s13 + 1, total := c.total + 1 } := by
  unfold SpeedRangeCount.insert
  rw [if_neg hn, if_neg g1, if_neg g2, if_neg g3, if_neg g4, if_neg g5, if_neg g6, if_neg g7, if_neg g8, if_neg g9, if_neg g10, if_neg g11, if_neg g12, if_pos h]

/-- Reduction of `SpeedRangeCount.insert` on the `s14` branch. -/
theorem speed_insert_eq_bin14 (c : SpeedRangeCount) (s : ℚ)
    (hn : ¬ s < 0)
    (g1 : ¬ (0 ≤ s ∧ s ≤ 15))
    (g2 : ¬ (15.1 ≤ s ∧ s ≤ 20))
    (g3 : ¬ (20.1 ≤ s ∧ s ≤ 25))
    (g4 : ¬ (25.1 ≤ s ∧ s ≤ 30))
    (g5 : ¬ (30.1 ≤ s ∧ s ≤ 35))
    (g6 : ¬ (35.1 ≤ s ∧ s ≤ 40))
    (g7 : ¬ (40.1 ≤ s ∧ s ≤ 45))
    (g8 : ¬ (45.1 ≤ s ∧ s ≤ 50))
    (g9 : ¬ (50.1 ≤ s ∧ s ≤ 55))
    (g10 : ¬ (55.1 ≤ s ∧ s ≤ 60))
    (g11 : ¬ (60.1 ≤ s ∧ s ≤ 65))
    (g12 : ¬ (65.1 ≤ s ∧ s ≤ 70))
    (g13 : ¬ (70.1 ≤ s ∧ s ≤ 75))
    (h : 75.1 ≤ s) :
    c.insert s = .ok { c with s14 := c.s14 + 1, total := c.total + 1 } := by
  unfold SpeedRangeCount.insert
  rw [if_neg hn, if_neg g1, if_neg g2, if_neg g3, if_neg g4, if_neg g5, if_neg g6, if_neg g7, if_neg g8, if_neg g9, if_neg g10, if_neg g11, if_neg g12, if_neg g13, if_pos h]

/-- Reduction of `SpeedRangeCount.insert` on the final (uncovered) branch. -/
theorem speed_insert_eq_gap (c : SpeedRangeCount) (s : ℚ)
    (hn : ¬ s < 0)
    (g1 : ¬ (0 ≤ s ∧ s ≤ 15))
    (g2 : ¬ (15.1 ≤ s ∧ s ≤ 20))
    (g3 : ¬ (20.1 ≤ s ∧ s ≤ 25))
    (g4 : ¬ (25.1 ≤ s ∧ s ≤ 30))
    (g5 : ¬ (30.1 ≤ s ∧ s ≤ 35))
    (g6 : ¬ (35.1 ≤ s ∧ s ≤ 40))
    (g7 : ¬ (40.1 ≤ s ∧ s ≤ 45))
    (g8 : ¬ (45.1 ≤ s ∧ s ≤ 50))
    (g9 : ¬ (50.1 ≤ s ∧ s ≤ 55))
    (g10 : ¬ (55.1 ≤ s ∧ s ≤ 60))
    (g11 : ¬ (60.1 ≤ s ∧ s ≤ 65))
    (g12 : ¬ (65.1 ≤ s ∧ s ≤ 70))
    (g13 : ¬ (70.1 ≤ s ∧ s ≤ 75))
    (g14 : ¬ 75.1 ≤ s) :
    c.insert s = .error (.InvalidSpeed s) := by
  unfold SpeedRangeCount.insert
  rw [if_neg hn, if_neg g1, if_neg g2, if_neg g3, if_neg g4, if_neg g5, if_neg g6, if_neg g7, if_neg g8, if_neg g9, if_neg g10, if_neg g11, if_neg g12, if_neg g13, if_neg g14]

/-- A non-negative speed outside the gaps satisfies one of the 14 range
conditions of the chain of `SpeedRangeCount.insert`. -/
theorem speed_cover (s : ℚ) (h0 : 0 ≤ s) (hg : ¬ speedGap s) :
    ((0 ≤ s ∧ s ≤ 15) ∨
      (15.1 ≤ s ∧ s ≤ 20) ∨
      (20.1 ≤ s ∧ s ≤ 25) ∨
      (25.1 ≤ s ∧ s ≤ 30) ∨
      (30.1 ≤ s ∧ s ≤ 35) ∨
      (35.1 ≤ s ∧ s ≤ 40) ∨
      (40.1 ≤ s ∧ s ≤ 45) ∨
      (45.1 ≤ s ∧ s ≤ 50) ∨
      (50.1 ≤ s ∧ s ≤ 55) ∨
      (55.1 ≤ s ∧ s ≤ 60) ∨
      (60.1 ≤ s ∧ s ≤ 65) ∨
      (65.1 ≤ s ∧ s ≤ 70) ∨
      (70.1 ≤ s ∧ s ≤ 75) ∨
      (75.1 ≤ s)) := by
  rcases le_or_lt s 15 with k1 | h1
  · exact Or.inl ⟨h0, k1⟩
  rcases lt_or_le s 15.1 with g1 | g1
  · exact absurd (show speedGap s from Or.inl (⟨h1, g1⟩)) hg
  rcases le_or_lt s 20 with k2 | h2
  · exact Or.inr (Or.inl (⟨g1, k2⟩))
  rcases lt_or_le s 20.1 with g2 | g2
  · exact absurd (show speedGap s from Or.inr (Or.inl (⟨h2, g2⟩))) hg
  rcases le_or_lt s 25 with k3 | h3
  · exact Or.inr (Or.inr (Or.inl (⟨g2, k3⟩)))
  rcases lt_or_le s 25.1 with g3 | g3
  · exact absurd (show speedGap s from Or.inr (Or.inr (Or.inl (⟨h3, g3⟩)))) hg
  rcases le_or_lt s 30 with k4 | h4
  · exact Or.inr (Or.inr (Or.inr (Or.inl (⟨g3, k4⟩))))
  rcases lt_or_le s 30.1 with g4 | g4
  · exact absurd (show speedGap s from Or.inr (Or.inr (Or.inr (Or.inl (⟨h4, g4⟩))))) hg
  rcases le_or_lt s 35 with k5 | h5
  · exact Or.inr (Or.inr (Or.inr (Or.inr (Or.inl (⟨g4, k5⟩)))))
  rcases lt_or_le s 35.1 with g5 | g5
  · exact absurd (show speedGap s from Or.inr (Or.inr (Or.inr (Or.inr (Or.inl (⟨h5, g5⟩)))))) hg
  rcases le_or_lt s 40 with k6 | h6
  · exact Or.inr (Or.inr (Or.inr (Or.inr (Or.inr (Or.inl (⟨g5, k6⟩))))))
  rcases lt_or_le s 40.1 with g6 | g6
  · exact absurd (show speedGap s from Or.inr (Or.inr (Or.inr (Or.inr (Or.inr (Or.inl (⟨h6, g6⟩))))))) hg
  rcases le_or_lt s 45 with k7 | h7
  · exact Or.inr (Or.inr (Or.inr (Or.inr (Or.inr (Or.inr (Or.inl (⟨g6, k7⟩)))))))
  rcases lt_or_le s 45.1 with g7 | g7
  · exact absurd (show speedGap s from Or.inr (Or.inr (Or.inr (Or.inr (Or.inr (Or.inr (Or.inl (⟨h7, g7⟩)))))))) hg
  rcases le_or_lt s 50 with k8 | h8
  · exact Or.inr (Or.inr (Or.inr (Or.inr (Or.inr (Or.inr (Or.inr (Or.inl (⟨g7, k8⟩))))))))
  rcases lt_or_le s 50.1 with g8 | g8
  · exact absurd (show speedGap s from Or.inr (Or.inr (Or.inr (Or.inr (Or.inr (Or.inr (Or.inr (Or.inl (⟨h8, g8⟩))))))))) hg
  rcases le_or_lt s 55 with k9 | h9
  · exact Or.inr (Or.inr (Or.inr (Or.inr (Or.inr (Or.inr (Or.inr (Or.inr (Or.inl (⟨g8, k9⟩)))))))))
  rcases lt_or_le s 55.1 with g9 | g9
  · exact absurd (show speedGap s from Or.inr (Or.inr (Or.inr (Or.inr (Or.inr (Or.inr (Or.inr (Or.inr (Or.inl (⟨h9, g9⟩)))))))))) hg
  rcases le_or_lt s 60 with k10 | h10
  · exact Or.inr (Or.inr (Or.inr (Or.inr (Or.inr (Or.inr (Or.inr (Or.inr (Or.inr (Or.inl (⟨g9, k10⟩))))))))))
  rcases lt_or_le s 60.1 with g10 | g10
  · exact absurd (show speedGap s from Or.inr (Or.inr (Or.inr (Or.inr (Or.inr (Or.inr (Or.inr (Or.inr (Or.inr (Or.inl (⟨h10, g10⟩))))))))))) hg
  rcases le_or_lt s 65 with k11 | h11
  · exact Or.inr (Or.inr (Or.inr (Or.inr (Or.inr (Or.inr (Or.inr (Or.inr (Or.inr (Or.inr (Or.inl (⟨g10, k11⟩)))))))))))
  rcases lt_or_le s 65.1 with g11 | g11
  · exact absurd (show speedGap s from Or.inr (Or.inr (Or.inr (Or.inr (Or.inr (Or.inr (Or.inr (Or.inr (Or.inr (Or.inr (Or.inl (⟨h11, g11⟩)))))))))))) hg
  rcases le_or_lt s 70 with k12 | h12
  · exact Or.inr (Or.inr (Or.inr (Or.inr (Or.inr (Or.inr (Or.inr (Or.inr (Or.inr (Or.inr (Or.inr (Or.inl (⟨g11, k12⟩))))))))))))
  rcases lt_or_le s 70.1 with g12 | g12
  · exact absurd (show speedGap s from Or.inr (Or.inr (Or.inr (Or.inr (Or.inr (Or.inr (Or.inr (Or.inr (Or.inr (Or.inr (Or.inr (Or.inl (⟨h12, g12⟩))))))))))))) hg
  rcases le_or_lt s 75 with k13 | h13
  · exact Or.inr (Or.inr (Or.inr (Or.inr (Or.inr (Or.inr (Or.inr (Or.inr (Or.inr (Or.inr (Or.inr (Or.inr (Or.inl (⟨g12, k13⟩)))))))))))))
  rcases lt_or_le s 75.1 with g13 | g13
  · exact absurd (show speedGap s from Or.inr (Or.inr (Or.inr (Or.inr (Or.inr (Or.inr (Or.inr (Or.inr (Or.inr (Or.inr (Or.inr (Or.inr (⟨h13, g13⟩))))))))))))) hg
  exact Or.inr (Or.inr (Or.inr (Or.inr (Or.inr (Or.inr (Or.inr (Or.inr (Or.inr (Or.inr (Or.inr (Or.inr (Or.inr (g13)))))))))))))

/-- A speed that is negative or falls in one of the uncovered gaps is rejected
by `SpeedRangeCount.insert`, with the invalid-speed error carrying the speed,
regardless of the current counters. -/
theorem speed_insert_error_of (c : SpeedRangeCount) (s : ℚ)
    (h : s < 0 ∨ speedGap s) : c.insert s = .error (.InvalidSpeed s) := by
  rcases h with hneg | hgap
  · exact speed_insert_eq_neg c s hneg
  · rcases hgap with ⟨ha, hb⟩ | ⟨ha, hb⟩ | ⟨ha, hb⟩ | ⟨ha, hb⟩ | ⟨ha, hb⟩ |
      ⟨ha, hb⟩ | ⟨ha, hb⟩ | ⟨ha, hb⟩ | ⟨ha, hb⟩ | ⟨ha, hb⟩ | ⟨ha, hb⟩ |
      ⟨ha, hb⟩ | ⟨ha, hb⟩ <;>
      (apply speed_insert_eq_gap c s <;>
        first
          | (rintro ⟨hx, hy⟩; linarith)
          | (intro hx; linarith))

/-- A non-negative speed outside the gaps is accepted by
`SpeedRangeCount.insert`: exactly one of the 14 range counters and `total` are
incremented. -/
theorem speed_insert_ok_of (c : SpeedRangeCount) (s : ℚ) (h0 : 0 ≤ s)
    (hg : ¬ speedGap s) :
    ∃ c' i, c.insert s = .ok c' ∧ i < 14 ∧ c'.bins = bumpNth c.bins i ∧
      c'.total = c.total + 1 := by
  rcases speed_cover s h0 hg with h | h | h | h | h | h | h | h | h | h | h | h | h | h
  · obtain ⟨hl, hr⟩ := h
    exact ⟨_, 0, speed_insert_eq_bin1 c s (by linarith) ⟨hl, hr⟩, by norm_num, rfl, rfl⟩
  · obtain ⟨hl, hr⟩ := h
    exact ⟨_, 1, speed_insert_eq_bin2 c s (by linarith) (by rintro ⟨hx, hy⟩; linarith) ⟨hl, hr⟩, by norm_num, rfl, rfl⟩
  · obtain ⟨hl, hr⟩ := h
    exact ⟨_, 2, speed_insert_eq_bin3 c s (by linarith) (by rintro ⟨hx, hy⟩; linarith) (by rintro ⟨hx, hy⟩; linarith) ⟨hl, hr⟩, by norm_num, rfl, rfl⟩
  · obtain ⟨hl, hr⟩ := h
    exact ⟨_, 3, speed_insert_eq_bin4 c s (by linarith) (by rintro ⟨hx, hy⟩; linarith) (by rintro ⟨hx, hy⟩; linarith) (by rintro ⟨hx, hy⟩; linarith) ⟨hl, hr⟩, by norm_num, rfl, rfl⟩
  · obtain ⟨hl, hr⟩ := h
    exact ⟨_, 4, speed_insert_eq_bin5 c s (by linarith) (by rintro ⟨hx, hy⟩; linarith) (by rintro ⟨hx, hy⟩; linarith) (by rintro ⟨hx, hy⟩; linarith) (by rintro ⟨hx, hy⟩; linarith) ⟨hl, hr⟩, by norm_num, rfl, rfl⟩
  · obtain ⟨hl, hr⟩ := h
    exact ⟨_, 5, speed_insert_eq_bin6 c s (by linarith) (by rintro ⟨hx, hy⟩; linarith) (by rintro ⟨hx, hy⟩; linarith) (by rintro ⟨hx, hy⟩; linarith) (by rintro ⟨hx, hy⟩; linarith) (by rintro ⟨hx, hy⟩; linarith) ⟨hl, hr⟩, by norm_num, rfl, rfl⟩
  · obtain ⟨hl, hr⟩ := h
    exact ⟨_, 6, speed_insert_eq_bin7 c s (by linarith) (by rintro ⟨hx, hy⟩; linarith) (by rintro ⟨hx, hy⟩; linarith) (by rintro ⟨hx, hy⟩; linarith) (by rintro ⟨hx, hy⟩; linarith) (by rintro ⟨hx, hy⟩; linarith) (by rintro ⟨hx, hy⟩; linarith) ⟨hl, hr⟩, by norm_num, rfl, rfl⟩
  · obtain ⟨hl, hr⟩ := h
    exact ⟨_, 7, speed_insert_eq_bin8 c s (by linarith) (by rintro ⟨hx, hy⟩; linarith) (by rintro ⟨hx, hy⟩; linarith) (by rintro ⟨hx, hy⟩; linarith) (by rintro ⟨hx, hy⟩; linarith) (by rintro ⟨hx, hy⟩; linarith) (by rintro ⟨hx, hy⟩; linarith) (by rintro ⟨hx, hy⟩; linarith) ⟨hl, hr⟩, by norm_num, rfl, rfl⟩
  · obtain ⟨hl, hr⟩ := h
    exact ⟨_, 8, speed_insert_eq_bin9 c s (by linarith) (by rintro ⟨hx, hy⟩; linarith) (by rintro ⟨hx, hy⟩; linarith) (by rintro ⟨hx, hy⟩; linarith) (by rintro ⟨hx, hy⟩; linarith) (by rintro ⟨hx, hy⟩; linarith) (by rintro ⟨hx, hy⟩; linarith) (by rintro ⟨hx, hy⟩; linarith) (by rintro ⟨hx, hy⟩; linarith) ⟨hl, hr⟩, by norm_num, rfl, rfl⟩
  · obtain ⟨hl, hr⟩ := h
    exact ⟨_, 9, speed_insert_eq_bin10 c s (by linarith) (by rintro ⟨hx, hy⟩; linarith) (by rintro ⟨hx, hy⟩; linarith) (by rintro ⟨hx, hy⟩; linarith) (by rintro ⟨hx, hy⟩; linarith) (by rintro ⟨hx, hy⟩; linarith) (by rintro ⟨hx, hy⟩; linarith) (by rintro ⟨hx, hy⟩; linarith) (by rintro ⟨hx, hy⟩; linarith) (by rintro ⟨hx, hy⟩; linarith) ⟨hl, hr⟩, by norm_num, rfl, rfl⟩
  · obtain ⟨hl, hr⟩ := h
    exact ⟨_, 10, speed_insert_eq_bin11 c s (by linarith) (by rintro ⟨hx, hy⟩; linarith) (by rintro ⟨hx, hy⟩; linarith) (by rintro ⟨hx, hy⟩; linarith) (by rintro ⟨hx, hy⟩; linarith) (by rintro ⟨hx, hy⟩; linarith) (by rintro ⟨hx, hy⟩; linarith) (by rintro ⟨hx, hy⟩; linarith) (by rintro ⟨hx, hy⟩; linarith) (by rintro ⟨hx, hy⟩; linarith) (by rintro ⟨hx, hy⟩; linarith) ⟨hl, hr⟩, by norm_num, rfl, rfl⟩
  · obtain ⟨hl, hr⟩ := h
    exact ⟨_, 11, speed_insert_eq_bin12 c s (by linarith) (by rintro ⟨hx, hy⟩; linarith) (by rintro ⟨hx, hy⟩; linarith) (by rintro ⟨hx, hy⟩; linarith) (by rintro ⟨hx, hy⟩; linarith) (by rintro ⟨hx, hy⟩; linarith) (by rintro ⟨hx, hy⟩; linarith) (by rintro ⟨hx, hy⟩; linarith) (by rintro ⟨hx, hy⟩; linarith) (by rintro ⟨hx, hy⟩; linarith) (by rintro ⟨hx, hy⟩; linarith) (by rintro ⟨hx, hy⟩; linarith) ⟨hl, hr⟩, by norm_num, rfl, rfl⟩
  · obtain ⟨hl, hr⟩ := h
    exact ⟨_, 12, speed_insert_eq_bin13 c s (by linarith) (by rintro ⟨hx, hy⟩; linarith) (by rintro ⟨hx, hy⟩; linarith) (by rintro ⟨hx, hy⟩; linarith) (by rintro ⟨hx, hy⟩; linarith) (by rintro ⟨hx, hy⟩; linarith) (by rintro ⟨hx, hy⟩; linarith) (by rintro ⟨hx, hy⟩; linarith) (by rintro ⟨hx, hy⟩; linarith) (by rintro ⟨hx, hy⟩; linarith) (by rintro ⟨hx, hy⟩; linarith) (by rintro ⟨hx, hy⟩; linarith) (by rintro ⟨hx, hy⟩; linarith) ⟨hl, hr⟩, by norm_num, rfl, rfl⟩
  · exact ⟨_, 13, speed_insert_eq_bin14 c s (by linarith) (by rintro ⟨hx, hy⟩; linarith) (by rintro ⟨hx, hy⟩; linarith) (by rintro ⟨hx, hy⟩; linarith) (by rintro ⟨hx, hy⟩; linarith) (by rintro ⟨hx, hy⟩; linarith) (by rintro ⟨hx, hy⟩; linarith) (by rintro ⟨hx, hy⟩; linarith) (by rintro ⟨hx, hy⟩; linarith) (by rintro ⟨hx, hy⟩; linarith) (by rintro ⟨hx, hy⟩; linarith) (by rintro ⟨hx, hy⟩; linarith) (by rintro ⟨hx, hy⟩; linarith) (by rintro ⟨hx, hy⟩; linarith) h, by norm_num, rfl, rfl⟩

/-- Claim C2 (amended): `SpeedRangeCount.insert` fails with `InvalidSpeed`
exactly when the speed is negative or lies strictly inside one of the gaps
`(15.0, 15.1)`, `(20.0, 20.1)`, ..., `(75.0, 75.1)` that the range chain
leaves uncovered (so the documented ranges do not partition `[0, ∞)`); every
other non-negative speed is accepted, incrementing exactly one range counter
and the total, while a rejected speed leaves the count unchanged (the
functional embedding returns only the error). -/
theorem speed_insert_errors_iff (c : SpeedRangeCount) (s : ℚ) :
    (s < 0 ∨ speedGap s → c.insert s = .error (.InvalidSpeed s)) ∧
    (0 ≤ s → ¬ speedGap s →
      ∃ c' i, c.insert s = .ok c' ∧ i < 14 ∧ c'.bins = bumpNth c.bins i ∧
        c'.total = c.total + 1) :=
  ⟨speed_insert_error_of c s, speed_insert_ok_of c s⟩

/-- Claim C2 counterexample: 15.05 is non-negative (and lies strictly between
the documented endpoints 15.0 and 15.1), yet `insert` rejects it instead of
returning `Ok`. -/
theorem speed_insert_rejects_15_05 :
    (0 : ℚ) ≤ 15.05 ∧
    (SpeedRangeCount.new 166905 .East).insert 15.05 =
      .error (.InvalidSpeed 15.05) := by
  refine ⟨by norm_num, speed_insert_eq_gap _ _ ?_ ?_ ?_ ?_ ?_ ?_ ?_ ?_ ?_ ?_ ?_ ?_ ?_ ?_ ?_⟩ <;>
    first
      | (rintro ⟨hx, hy⟩; norm_num at hy ⊢; linarith)
      | (intro hx; norm_num at hx)

/-- Claim C2 witness: the amended theorem applied at the rejected speed −2 and
at the accepted speed 16. -/
theorem speed_insert_errors_iff_witness :
    (SpeedRangeCount.new 0 .North).insert (-2) = .error (.InvalidSpeed (-2)) ∧
    ∃ c' i, (SpeedRangeCount.new 0 .North).insert 16 = .ok c' ∧ i < 14 ∧
      c'.bins = bumpNth (SpeedRangeCount.new 0 .North).bins i ∧
      c'.total = (SpeedRangeCount.new 0 .North).total + 1 :=
  ⟨(speed_insert_errors_iff (SpeedRangeCount.new 0 .North) (-2)).1 (Or.inl (by norm_num)),
   (speed_insert_errors_iff (SpeedRangeCount.new 0 .North) 16).2 (by norm_num)
     (by norm_num [speedGap])⟩

/-- Claim C7: boundary speeds land in the documented bins: 0.0 and 15.0
increment `s1`; 15.1 and 20.0 increment `s2`; each exact multiple of 5.0 from
20.0 up to 75.0 increments the bin it tops (`s2` through `s13`); 75.1 and
every larger speed increment `s14`; and −0.1 fails. -/
theorem speed_insert_boundary_bins (c : SpeedRangeCount) :
    (∀ s : ℚ, 75.1 ≤ s →
      c.insert s = .ok { c with s14 := c.s14 + 1, total := c.total + 1 }) ∧
    c.insert 0 = .ok { c with s1 := c.s1 + 1, total := c.total + 1 } ∧
    c.insert 15 = .ok { c with s1 := c.s1 + 1, total := c.total + 1 } ∧
    c.insert 15.1 = .ok { c with s2 := c.s2 + 1, total := c.total + 1 } ∧
    c.insert 20 = .ok { c with s2 := c.s2 + 1, total := c.total + 1 } ∧
    c.insert 25 = .ok { c with s3 := c.s3 + 1, total := c.total + 1 } ∧
    c.insert 30 = .ok { c with s4 := c.s4 + 1, total := c.total + 1 } ∧
    c.insert 35 = .ok { c with s5 := c.s5 + 1, total := c.total + 1 } ∧
    c.insert 40 = .ok { c with s6 := c.s6 + 1, total := c.total + 1 } ∧
    c.insert 45 = .ok { c with s7 := c.s7 + 1, total := c.total + 1 } ∧
    c.insert 50 = .ok { c with s8 := c.s8 + 1, total := c.total + 1 } ∧
    c.insert 55 = .ok { c with s9 := c.s9 + 1, total := c.total + 1 } ∧
    c.insert 60 = .ok { c with s10 := c.s10 + 1, total := c.total + 1 } ∧
    c.insert 65 = .ok { c with s11 := c.s11 + 1, total := c.total + 1 } ∧
    c.insert 70 = .ok { c with s12 := c.s12 + 1, total := c.total + 1 } ∧
    c.insert 75 = .ok { c with s13 := c.s13 + 1, total := c.total + 1 } ∧
    c.insert (-0.1) = .error (.InvalidSpeed (-0.1)) := by
  refine ⟨?_, ?_, ?_, ?_, ?_, ?_, ?_, ?_, ?_, ?_, ?_, ?_, ?_, ?_, ?_, ?_, ?_⟩
  · intro s hs
    apply speed_insert_eq_bin14 c s <;>
      first
        | exact hs
        | (rintro ⟨hx, hy⟩; linarith)
        | (intro hx; linarith)
  · apply speed_insert_eq_bin1 c 0 <;>
      first
        | (constructor <;> norm_num)
        | (rintro ⟨hx, hy⟩; norm_num at hx hy)
        | (intro hx; norm_num at hx)
  · apply speed_insert_eq_bin1 c 15 <;>
      first
        | (constructor <;> norm_num)
        | (rintro ⟨hx, hy⟩; norm_num at hx hy)
        | (intro hx; norm_num at hx)
  · apply speed_insert_eq_bin2 c 15.1 <;>
      first
        | (constructor <;> norm_num)
        | (rintro ⟨hx, hy⟩; norm_num at hx hy)
        | (intro hx; norm_num at hx)
  · apply speed_insert_eq_bin2 c 20 <;>
      first
        | (constructor <;> norm_num)
        | (rintro ⟨hx, hy⟩; norm_num at hx hy)
        | (intro hx; norm_num at hx)
  · apply speed_insert_eq_bin3 c 25 <;>
      first
        | (constructor <;> norm_num)
        | (rintro ⟨hx, hy⟩; norm_num at hx hy)
        | (intro hx; norm_num at hx)
  · apply speed_insert_eq_bin4 c 30 <;>
      first
        | (constructor <;> norm_num)
        | (rintro ⟨hx, hy⟩; norm_num at hx hy)
        | (intro hx; norm_num at hx)
  · apply speed_insert_eq_bin5 c 35 <;>
      first
        | (constructor <;> norm_num)
        | (rintro ⟨hx, hy⟩; norm_num at hx hy)
        | (intro hx; norm_num at hx)
  · apply speed_insert_eq_bin6 c 40 <;>
      first
        | (constructor <;> norm_num)
        | (rintro ⟨hx, hy⟩; norm_num at hx hy)
        | (intro hx; norm_num at hx)
  · apply speed_insert_eq_bin7 c 45 <;>
      first
        | (constructor <;> norm_num)
        | (rintro ⟨hx, hy⟩; norm_num at hx hy)
        | (intro hx; norm_num at hx)
  · apply speed_insert_eq_bin8 c 50 <;>
      first
        | (constructor <;> norm_num)
        | (rintro ⟨hx, hy⟩; norm_num at hx hy)
        | (intro hx; norm_num at hx)
  · apply speed_insert_eq_bin9 c 55 <;>
      first
        | (constructor <;> norm_num)
        | (rintro ⟨hx, hy⟩; norm_num at hx hy)
        | (intro hx; norm_num at hx)
  · apply speed_insert_eq_bin10 c 60 <;>
      first
        | (constructor <;> norm_num)
        | (rintro ⟨hx, hy⟩; norm_num at hx hy)
        | (intro hx; norm_num at hx)
  · apply speed_insert_eq_bin11 c 65 <;>
      first
        | (constructor <;> norm_num)
        | (rintro ⟨hx, hy⟩; norm_num at hx hy)
        | (intro hx; norm_num at hx)
  · apply speed_insert_eq_bin12 c 70 <;>
      first
        | (constructor <;> norm_num)
        | (rintro ⟨hx, hy⟩; norm_num at hx hy)
        | (intro hx; norm_num at hx)
  · apply speed_insert_eq_bin13 c 75 <;>
      first
        | (constructor <;> norm_num)
        | (rintro ⟨hx, hy⟩; norm_num at hx hy)
        | (intro hx; norm_num at hx)
  · exact speed_insert_eq_neg c (-0.1) (by norm_num)

/-- The counter loop of the consecutive-zero check warns exactly at the slots
whose own value and whose predecessor's value (in traversal order) are both an
observed zero; the Boolean argument records whether the slot before the list
was an observed zero. -/
theorem consecutiveZeroLoop_eq_adjacent (xs : List (String × Option Nat)) :
    ∀ cz : Nat, consecutiveZeroLoop cz xs = adjacentZeroWarnings (cz != 0) xs := by
  induction xs with
  | nil => intro cz; rfl
  | cons x rest ih =>
    intro cz
    obtain ⟨hour, count⟩ := x
    by_cases h : count.any (fun c => c == 0) = true
    · cases cz <;> simp [consecutiveZeroLoop, adjacentZeroWarnings, h, ih]
    · simp [consecutiveZeroLoop, adjacentZeroWarnings, h, ih]

set_option maxHeartbeats 2000000 in
/-- Iterating the `hourly` BTreeMap visits the slots in lexicographic key
order: `am10, am11, am4, ..., am9, pm1, pm10, pm12, pm2, ..., pm9` — not in
chronological order. -/
theorem hourlyMap_eq_lex (r : VolcountRow) :
    hourlyMap r =
      [("am10", r.am10), ("am11", r.am11), ("am4", r.am4), ("am5", r.am5),
       ("am6", r.am6), ("am7", r.am7), ("am8", r.am8), ("am9", r.am9),
       ("pm1", r.pm1), ("pm10", r.pm10), ("pm12", r.pm12), ("pm2", r.pm2),
       ("pm3", r.pm3), ("pm4", r.pm4), ("pm5", r.pm5), ("pm6", r.pm6),
       ("pm7", r.pm7), ("pm8", r.pm8), ("pm9", r.pm9)] := rfl

/-- Claim C3 (amended): the consecutive-zero check inspects the 19 hourly
slots in lexicographic order of their column names (`am10, am11, am4, ...,
am9, pm1, pm10, pm12, pm2, ..., pm9`), not chronological order; a null hourly
total resets the consecutive-zero counter (it is treated like a nonzero
observation, not like a zero); and a warning names a slot exactly when that
slot and the slot preceding it in this lexicographic order both hold an
observed zero total — so a lone isolated zero never warns. -/
theorem consecutive_zero_warnings_characterization (r : VolcountRow) :
    consecutiveZeroCheck r =
      adjacentZeroWarnings false
        [("am10", r.am10), ("am11", r.am11), ("am4", r.am4), ("am5", r.am5),
         ("am6", r.am6), ("am7", r.am7), ("am8", r.am8), ("am9", r.am9),
         ("pm1", r.pm1), ("pm10", r.pm10), ("pm12", r.pm12), ("pm2", r.pm2),
         ("pm3", r.pm3), ("pm4", r.pm4), ("pm5", r.pm5), ("pm6", r.pm6),
         ("pm7", r.pm7), ("pm8", r.pm8), ("pm9", r.pm9)] := by
  unfold consecutiveZeroCheck
  rw [hourlyMap_eq_lex]
  exact consecutiveZeroLoop_eq_adjacent _ 0

/-- A day whose only zero slots are the chronologically consecutive `am9` and
`am10`, with every other slot observed nonzero. -/
def zeroRunRow : VolcountRow :=
  ⟨some 1, some 1, some 1, some 1, some 1, some 0, some 0, some 1, some 1,
   some 1, some 1, some 1, some 1, some 1, some 1, some 1, some 1, some 1,
   some 1⟩

/-- A day with every hourly slot null. -/
def allNullRow : VolcountRow :=
  ⟨none, none, none, none, none, none, none, none, none, none, none, none,
   none, none, none, none, none, none, none⟩

/-- Claim C3 counterexample: on the day whose only zeros are the
chronologically consecutive `am9`, `am10` the code emits no warning (in its
lexicographic traversal the two zeros are not adjacent), while the claimed
chronological null-as-zero reading warns at `am10`; and on a day of 19 nulls
the code emits no warning at all, while the claimed reading warns at every
slot from the second on. -/
theorem consecutive_zero_check_counterexample :
    consecutiveZeroCheck zeroRunRow = [] ∧
    consecutiveZeroCheckChrono zeroRunRow = ["am10"] ∧
    consecutiveZeroCheck allNullRow = [] ∧
    consecutiveZeroCheckChrono allNullRow =
      ["am5", "am6", "am7", "am8", "am9", "am10", "am11", "pm12", "pm1",
       "pm2", "pm3", "pm4", "pm5", "pm6", "pm7", "pm8", "pm9", "pm10"] :=
  ⟨by decide, by decide, by decide, by decide⟩

/-- Claim C7 witness: the open-ended clause applied at speed 100. -/
theorem speed_insert_boundary_bins_witness :
    (SpeedRangeCount.new 7 .West).insert 100 =
      .ok { SpeedRangeCount.new 7 .West with
              s14 := (SpeedRangeCount.new 7 .West).s14 + 1,
              total := (SpeedRangeCount.new 7 .West).total + 1 } :=
  (speed_insert_boundary_bins (SpeedRangeCount.new 7 .West)).1 100 (by norm_num)

/-- Claim C4: evaluation at the rows North: [40], South: [20, 10]. The
`entry(direction).or_insert(total) += total` accumulation seeds a vacant
entry with the row total and then adds the total again, double-counting the
first row of each direction: the code compares the figures 80 and 50 and
warns (50/130 ≈ 0.385 < 0.40), although the plain per-direction sums are 40
and 30, whose minority share 30/70 ≈ 0.429 is not below 0.40, so the claimed
sum-based rule would emit no warning here. -/
theorem dir_balance_first_row_double_count :
    countByDir [(40, "North"), (20, "South"), (10, "South")] =
      [("North", 80), ("South", 50)] ∧
    dirBalanceWarn [(40, "North"), (20, "South"), (10, "South")] = true ∧
    sumForDir [(40, "North"), (20, "South"), (10, "South")] "North" = 40 ∧
    sumForDir [(40, "North"), (20, "South"), (10, "South")] "South" = 30 ∧
    ¬ ((30 : ℚ) / (30 + 40) < DIR_PROPORTION_LOWER_BOUND) := by
  have h : countByDir [(40, "North"), (20, "South"), (10, "South")] =
      [("North", 80), ("South", 50)] := by decide
  refine ⟨h, ?_, by decide, by decide, by norm_num [DIR_PROPORTION_LOWER_BOUND]⟩
  simp only [dirBalanceWarn, h, DIR_PROPORTION_LOWER_BOUND]
  norm_num [Nat.min_def, Nat.max_def]

/-- A record with a channel other than 1 and 2 is skipped, with one logged
error and both maps untouched. -/
theorem aggStep_bad_channel (md : CountMetadata) (maps : AggMaps)
    (v : CountedVehicle) (h : goodChannel v = false) :
    aggStep md maps v = some (maps, 1) := by
  unfold goodChannel at h
  unfold aggStep
  rcases hc : v.channel with _ | (_ | (_ | n))
  · rfl
  · rw [hc] at h; simp at h
  · rw [hc] at h; simp at h
  · rfl

/-- The loop body panics only on a channel-2 record of a single-direction
count: under the guarantee that channel 2 implies a second direction, it
always produces a next state. -/
theorem aggStep_isSome (md : CountMetadata) (maps : AggMaps) (v : CountedVehicle)
    (h2 : v.channel = 2 → md.directions.direction2 ≠ none) :
    ∃ p, aggStep md maps v = some p := by
  unfold aggStep
  rcases hc : v.channel with _ | (_ | (_ | n))
  · exact ⟨_, rfl⟩
  · exact ⟨_, rfl⟩
  · rcases hd : md.directions.direction2 with _ | d
    · exact absurd hd (h2 hc)
    · exact ⟨_, rfl⟩
  · exact ⟨_, rfl⟩

/-- A channel-1 record resolves to the first direction. -/
theorem aggStep_channel1 (md : CountMetadata) (maps : AggMaps) (v : CountedVehicle)
    (h1 : v.channel = 1) :
    aggStep md maps v = some (aggStepWithDir md maps v md.directions.direction1) := by
  unfold aggStep
  rw [h1]

/-- A channel-2 record of a two-direction count resolves to the second
direction. -/
theorem aggStep_channel2 (md : CountMetadata) (maps : AggMaps) (v : CountedVehicle)
    (dir : Direction) (h2 : v.channel = 2)
    (hd : md.directions.direction2 = some dir) :
    aggStep md maps v = some (aggStepWithDir md maps v dir) := by
  unfold aggStep
  rw [h2, hd]

/-- The error tally only accumulates: running the loop from error count `e`
yields the run from 0 with `e` added. -/
theorem aggGo_errors_shift (md : CountMetadata) (cs : List CountedVehicle) :
    ∀ (maps : AggMaps) (e : Nat),
      aggGo md maps e cs =
        (aggGo md maps 0 cs).map
          (fun r => ⟨r.speedMap, r.classMap, r.errors + e⟩) := by
  induction cs with
  | nil => intro maps e; simp [aggGo]
  | cons v rest ih =>
    intro maps e
    cases hs : aggStep md maps v with
    | none => simp [aggGo, hs]
    | some p =>
      obtain ⟨maps', d⟩ := p
      simp only [aggGo, hs]
      rw [ih maps' (e + d), ih maps' (0 + d)]
      cases aggGo md maps' 0 rest with
      | none => simp
      | some r => simp; omega

/-- Bad-channel records are exactly skipped: the run over a batch equals the
run over the batch with the unknown-channel records filtered out, with one
extra logged error per filtered record. -/
theorem aggGo_skips_bad (md : CountMetadata) :
    ∀ cs : List CountedVehicle,
      (∀ v ∈ cs, v.channel = 2 → md.directions.direction2 ≠ none) →
      ∀ (maps : AggMaps) (e : Nat),
        aggGo md maps e cs =
          aggGo md maps (e + badChannelCount cs) (cs.filter goodChannel) := by
  intro cs
  induction cs with
  | nil => intro _ maps e; simp [badChannelCount, aggGo]
  | cons v rest ih =>
    intro H maps e
    have Hrest : ∀ w ∈ rest, w.channel = 2 → md.directions.direction2 ≠ none :=
      fun w hw => H w (List.mem_cons_of_mem _ hw)
    by_cases hg : goodChannel v = true
    · obtain ⟨p, hs⟩ := aggStep_isSome md maps v (H v (List.mem_cons_self _ _))
      obtain ⟨maps', d⟩ := p
      rw [List.filter_cons_of_pos hg]
      simp only [aggGo, hs]
      rw [ih Hrest maps' (e + d)]
      have harith : e + d + badChannelCount rest =
          e + badChannelCount (v :: rest) + d := by
        simp only [badChannelCount, List.countP_cons, hg]
        simp
        omega
      rw [harith]
    · have hg' : goodChannel v = false := by
        cases hgc : goodChannel v
        · rfl
        · exact absurd hgc hg
      have hs := aggStep_bad_channel md maps v hg'
      rw [List.filter_cons_of_neg (by simp [hg'])]
      simp only [aggGo, hs]
      rw [ih Hrest maps (e + 1)]
      have harith : e + 1 + badChannelCount rest = e + badChannelCount (v :: rest) := by
        simp only [badChannelCount, List.countP_cons, hg']
        simp
        omega
      rw [harith]

/-- Under the no-panic guarantee the run always completes. -/
theorem aggGo_isSome (md : CountMetadata) :
    ∀ cs : List CountedVehicle,
      (∀ v ∈ cs, v.channel = 2 → md.directions.direction2 ≠ none) →
      ∀ (maps : AggMaps) (e : Nat), ∃ r, aggGo md maps e cs = some r := by
  intro cs
  induction cs with
  | nil => intro _ maps e; exact ⟨_, rfl⟩
  | cons v rest ih =>
    intro H maps e
    obtain ⟨p, hs⟩ := aggStep_isSome md maps v (H v (List.mem_cons_self _ _))
    obtain ⟨maps', d⟩ := p
    obtain ⟨r, hr⟩ := ih (fun w hw => H w (List.mem_cons_of_mem _ hw)) maps' (e + d)
    exact ⟨r, by simp only [aggGo, hs]; exact hr⟩

/-- Claim C1 (amended): observations whose channel is neither 1 nor 2 are
skipped with a logged processing error each, and the run continues, returning
the maps built from the remaining observations — provided no observation has
channel 2 while the metadata's second direction is absent. In that remaining
case the code does not skip: it panics (`direction2.unwrap()`), aborting the
whole batch (see the counterexample). -/
theorem create_skips_unknown_channels (md : CountMetadata)
    (counts : List CountedVehicle)
    (H : ∀ v ∈ counts, v.channel = 2 → md.directions.direction2 ≠ none) :
    ∃ r' : AggResult,
      create_speed_and_class_count md (counts.filter goodChannel) = some r' ∧
      create_speed_and_class_count md counts =
        some ⟨r'.speedMap, r'.classMap, r'.errors + badChannelCount counts⟩ := by
  have Hf : ∀ v ∈ counts.filter goodChannel, v.channel = 2 →
      md.directions.direction2 ≠ none :=
    fun v hv => H v (List.mem_of_mem_filter hv)
  obtain ⟨r', hr'⟩ := aggGo_isSome md (counts.filter goodChannel) Hf ([], []) 0
  refine ⟨r', hr', ?_⟩
  unfold create_speed_and_class_count
  rw [aggGo_skips_bad md counts H ([], []) 0,
    aggGo_errors_shift md (counts.filter goodChannel) ([], [])
      (0 + badChannelCount counts),
    hr']
  simp

/-- A single-direction (northbound-only) count. -/
def mdSingleDir : CountMetadata :=
  ⟨"rc", 166905, ⟨.North, none⟩, 40972, some 35⟩

/-- A channel-2 observation. -/
def vChannel2 : CountedVehicle := ⟨0, ⟨10, 20, 30⟩, 2, .PassengerCars, 30⟩

/-- An observation with the unknown channel 5. -/
def vChannel5 : CountedVehicle := ⟨0, ⟨10, 20, 30⟩, 5, .PassengerCars, 30⟩

/-- Claim C1 counterexample: a channel-2 observation of a single-direction
count is not skipped with a recorded error — `direction2.unwrap()` panics,
aborting the whole batch (the embedded run produces no maps at all), contrary
to the claim that processing never aborts and the two maps are still
returned. -/
theorem create_panics_on_channel2_without_direction2 :
    create_speed_and_class_count mdSingleDir [vChannel2] = none := rfl

/-- Claim C1 witness: the amended theorem applied to a single unknown-channel
observation of the single-direction count. -/
theorem create_skips_unknown_channels_witness :
    ∃ r' : AggResult,
      create_speed_and_class_count mdSingleDir ([vChannel5].filter goodChannel) =
        some r' ∧
      create_speed_and_class_count mdSingleDir [vChannel5] =
        some ⟨r'.speedMap, r'.classMap, r'.errors + badChannelCount [vChannel5]⟩ :=
  create_skips_unknown_channels mdSingleDir [vChannel5]
    (by
      intro v hv h2
      simp only [List.mem_singleton] at hv
      rw [hv] at h2
      simp [vChannel5] at h2)

/-- When the speed insert rejects the record, the loop body leaves the class
map untouched, keeps the speed map except for the `or_insert` residue, and
logs one error. -/
theorem aggStepWithDir_speed_error (md : CountMetadata) (maps : AggMaps)
    (v : CountedVehicle) (dir : Direction) (tp : CTime)
    (htp : time_bin v.time = some tp)
    (hrej : v.speed < 0 ∨ speedGap v.speed) :
    aggStepWithDir md maps v dir =
      (((alistEntry maps.1 ⟨⟨v.date, tp⟩, v.channel⟩
          (SpeedRangeCount.new md.dvrpc_num dir)).2, maps.2), 1) := by
  unfold aggStepWithDir
  rw [htp]
  dsimp only
  rw [speed_insert_error_of _ v.speed hrej]

/-- Claim C10: in `create_speed_and_class_count`, an observation whose speed
is rejected by `SpeedRangeCount.insert` changes no counter in either map and
adds no vehicle-class entry for its key; the run logs one error and continues
with the remaining observations — but the `entry(key).or_insert(...)` that ran
before the failed insert leaves a newly created all-zero `SpeedRangeCount`
entry (total 0, seeded with the resolved direction and `dvrpc_num`) in the
speed map whenever the key was not already present, so skipping the record is
not fully atomic; a key already present keeps the speed map entirely
unchanged. -/
theorem speed_rejected_record_skipped_nonatomic
    (md : CountMetadata) (maps : AggMaps) (v : CountedVehicle)
    (rest : List CountedVehicle) (e : Nat) (dir : Direction) (tp : CTime)
    (hch : v.channel = 1 ∧ dir = md.directions.direction1 ∨
           v.channel = 2 ∧ md.directions.direction2 = some dir)
    (htp : time_bin v.time = some tp)
    (hrej : v.speed < 0 ∨ speedGap v.speed) :
    aggGo md maps e (v :: rest) =
      aggGo md
        ((alistEntry maps.1 ⟨⟨v.date, tp⟩, v.channel⟩
            (SpeedRangeCount.new md.dvrpc_num dir)).2, maps.2)
        (e + 1) rest ∧
    (SpeedRangeCount.new md.dvrpc_num dir).total = 0 ∧
    (SpeedRangeCount.new md.dvrpc_num dir).dvrpc_num = md.dvrpc_num ∧
    (SpeedRangeCount.new md.dvrpc_num dir).direction = dir ∧
    (alistGet? maps.1 ⟨⟨v.date, tp⟩, v.channel⟩ = none →
      (alistEntry maps.1 ⟨⟨v.date, tp⟩, v.channel⟩
          (SpeedRangeCount.new md.dvrpc_num dir)).2 =
        maps.1 ++ [(⟨⟨v.date, tp⟩, v.channel⟩, SpeedRangeCount.new md.dvrpc_num dir)]) ∧
    (∀ c0, alistGet? maps.1 ⟨⟨v.date, tp⟩, v.channel⟩ = some c0 →
      (alistEntry maps.1 ⟨⟨v.date, tp⟩, v.channel⟩
          (SpeedRangeCount.new md.dvrpc_num dir)).2 = maps.1) := by
  have hstep : aggStep md maps v =
      some (((alistEntry maps.1 ⟨⟨v.date, tp⟩, v.channel⟩
          (SpeedRangeCount.new md.dvrpc_num dir)).2, maps.2), 1) := by
    rcases hch with ⟨h1, hdir⟩ | ⟨h2, hd⟩
    · rw [aggStep_channel1 md maps v h1, ← hdir,
        aggStepWithDir_speed_error md maps v dir tp htp hrej]
    · rw [aggStep_channel2 md maps v dir h2 hd,
        aggStepWithDir_speed_error md maps v dir tp htp hrej]
  refine ⟨?_, rfl, rfl, rfl, ?_, ?_⟩
  · simp only [aggGo, hstep]
  · intro h; simp [alistEntry, h]
  · intro c0 hc0; simp [alistEntry, hc0]

/-- A channel-1 observation with the negative speed −5. -/
def vNegSpeed : CountedVehicle := ⟨0, ⟨10, 20, 30⟩, 1, .Motorcycles, -5⟩

/-- Claim C10 witness: the theorem applied to a negative-speed channel-1
observation hitting empty maps. -/
theorem speed_rejected_record_skipped_nonatomic_witness :
    aggGo mdSingleDir (([], []) : AggMaps) 0 [vNegSpeed] =
      aggGo mdSingleDir
        ((alistEntry (([], []) : AggMaps).1
            ⟨⟨vNegSpeed.date, ⟨10, 15, 0⟩⟩, vNegSpeed.channel⟩
            (SpeedRangeCount.new mdSingleDir.dvrpc_num .North)).2,
         (([], []) : AggMaps).2)
        (0 + 1) [] ∧
    (SpeedRangeCount.new mdSingleDir.dvrpc_num .North).total = 0 ∧
    (SpeedRangeCount.new mdSingleDir.dvrpc_num .North).dvrpc_num =
      mdSingleDir.dvrpc_num ∧
    (SpeedRangeCount.new mdSingleDir.dvrpc_num .North).direction = .North ∧
    (alistGet? (([], []) : AggMaps).1
        ⟨⟨vNegSpeed.date, ⟨10, 15, 0⟩⟩, vNegSpeed.channel⟩ = none →
      (alistEntry (([], []) : AggMaps).1
          ⟨⟨vNegSpeed.date, ⟨10, 15, 0⟩⟩, vNegSpeed.channel⟩
          (SpeedRangeCount.new mdSingleDir.dvrpc_num .North)).2 =
        (([], []) : AggMaps).1 ++
          [(⟨⟨vNegSpeed.date, ⟨10, 15, 0⟩⟩, vNegSpeed.channel⟩,
            SpeedRangeCount.new mdSingleDir.dvrpc_num .North)]) ∧
    (∀ c0, alistGet? (([], []) : AggMaps).1
        ⟨⟨vNegSpeed.date, ⟨10, 15, 0⟩⟩, vNegSpeed.channel⟩ = some c0 →
      (alistEntry (([], []) : AggMaps).1
          ⟨⟨vNegSpeed.date, ⟨10, 15, 0⟩⟩, vNegSpeed.channel⟩
          (SpeedRangeCount.new mdSingleDir.dvrpc_num .North)).2 =
        (([], []) : AggMaps).1) :=
  speed_rejected_record_skipped_nonatomic mdSingleDir ([], []) vNegSpeed [] 0
    .North ⟨10, 15, 0⟩ (Or.inl ⟨rfl, rfl⟩) rfl (Or.inl (by norm_num [vNegSpeed]))
